import Mathlib

/-!
Verification of the invoicing repository (Phoenix invoice parser and its
validation models) against its natural-language specification.

The Python sources are shallowly embedded:

* the regular-expression fragment used by the extractors
  (src/parsers/extractors/regex_extractor.py and keyword_extractor.py) is
  embedded as a small pattern AST with a backtracking matcher that follows
  the semantics of the re module for exactly the constructs the repository
  uses: literal characters, the classes \d, \s, [\s\S], [\d\s], [\s:] and
  [^\n], greedy and lazy counted repetition, and capturing groups, with an
  optional IGNORECASE flag (case folding is modelled on ASCII letters);
* Decimal values are embedded as rationals, with quantize(0.01) embedded as
  round-half-even at two decimal places;
* datetime.date values are embedded as a year/month/day record together with
  the proleptic-Gregorian ordinal used by Python for date subtraction;
* fallible Python code (raising PDFParseError, ValueError and friends)
  is embedded in the Except monad.

Definitions keep the names of the corresponding Python functions wherever
Lean allows it.
-/

set_option maxHeartbeats 1000000

namespace Invoicing

/-! ## Characters and character classes -/

/-- ASCII whitespace accepted by the regex class \s (space, tab, newline,
carriage return, vertical tab, form feed). -/
def isWs (c : Char) : Bool :=
  c = ' ' || c = '\t' || c = '\n' || c = '\r' || c = '\x0b' || c = '\x0c'

/-- Case folding for the IGNORECASE flag, modelled on ASCII letters. -/
def fold (c : Char) : Char := c.toLower

/-- Comparison of a pattern character against a text character, with the
optional IGNORECASE flag. -/
def chEq (ci : Bool) (p c : Char) : Bool :=
  if ci then fold p = fold c else p = c

/-- The character classes appearing in the patterns of the repository. -/
inductive CC where
  /-- the class \d -/
  | digit : CC
  /-- the class \s -/
  | wspace : CC
  /-- the class [\s\S], any character -/
  | anyc : CC
  /-- the class [\d\s] -/
  | digitSpace : CC
  /-- the class [\s:] (also written [:\s]) -/
  | spaceColon : CC
  /-- the class [^\n] -/
  | notNl : CC
deriving DecidableEq

/-- Membership of a character in a class. -/
def inCC : CC → Char → Bool
  | .digit, c => c.isDigit
  | .wspace, c => isWs c
  | .anyc, _ => true
  | .digitSpace, c => c.isDigit || isWs c
  | .spaceColon, c => isWs c || c = ':'
  | .notNl, c => c ≠ '\n'

/-! ## Pattern AST -/

/-- Abstract syntax of the regular-expression fragment used by the
repository: literals, the classes above, concatenation, capturing groups,
and greedy/lazy counted repetition.  repG a lo hi is a greedy repetition
with lower bound lo and optional upper bound hi (none meaning unbounded,
as in + and *); repL is its lazy variant (as in {0,100}?). -/
inductive RE where
  | eps : RE
  | ch : Char → RE
  | cc : CC → RE
  | seq : RE → RE → RE
  | grp : RE → RE
  | repG : RE → Nat → Option Nat → RE
  | repL : RE → Nat → Option Nat → RE
deriving DecidableEq

/-- Number of capturing groups of a pattern (re.Pattern.groups). -/
def RE.numGroups : RE → Nat
  | .eps | .ch _ | .cc _ => 0
  | .seq a b => a.numGroups + b.numGroups
  | .grp a => a.numGroups + 1
  | .repG a _ _ | .repL a _ _ => a.numGroups

/-- A literal string pattern, as produced by re.escape on a keyword. -/
def litStr : List Char → RE
  | [] => .eps
  | c :: cs => .seq (.ch c) (litStr cs)

/-- Capture map of a partial match: group index paired with the captured
characters; the most recent binding for an index is the valid one. -/
abbrev Caps := List (Nat × List Char)

/-- All ways the pattern can match a prefix of the text, as pairs of
(remaining text, captures), listed in backtracking priority order: the
head is the alternative the re module commits to.  gi is the index the
next capturing group to the left receives.  fuel decreases on every
recursive call, so the definition is structural and computes in the
kernel; the fuel chosen by the search wrapper below strictly exceeds
the depth of every backtracking path for patterns whose unbounded
repetition bodies consume at least one character (every pattern in the
repository), so the truncation arm is never taken there and the
behaviour is exactly that of the re module. -/
def matList (ci : Bool) : Nat → RE → Nat → List Char → Caps → List (List Char × Caps)
  | 0, _, _, _, _ => []
  | fuel + 1, re, gi, s, caps =>
    match re with
    | .eps => [(s, caps)]
    | .ch c =>
      match s with
      | [] => []
      | c' :: rest => if chEq ci c c' then [(rest, caps)] else []
    | .cc k =>
      match s with
      | [] => []
      | c' :: rest => if inCC k c' then [(rest, caps)] else []
    | .seq a b =>
      (matList ci fuel a gi s caps).flatMap
        (fun p => matList ci fuel b (gi + a.numGroups) p.1 p.2)
    | .grp a =>
      (matList ci fuel a (gi + 1) s caps).map
        (fun p => (p.1, (gi, s.take (s.length - p.1.length)) :: p.2))
    | .repG a lo hi =>
      match lo, hi with
      | 0, some 0 => [(s, caps)]
      | 0, some (h + 1) =>
        ((matList ci fuel a gi s caps).flatMap
          (fun p => matList ci fuel (.repG a 0 (some h)) gi p.1 p.2)) ++ [(s, caps)]
      | 0, none =>
        ((matList ci fuel a gi s caps).flatMap
          (fun p => matList ci fuel (.repG a 0 none) gi p.1 p.2)) ++ [(s, caps)]
      | _ + 1, some 0 => []
      | l + 1, some (h + 1) =>
        (matList ci fuel a gi s caps).flatMap
          (fun p => matList ci fuel (.repG a l (some h)) gi p.1 p.2)
      | l + 1, none =>
        (matList ci fuel a gi s caps).flatMap
          (fun p => matList ci fuel (.repG a l none) gi p.1 p.2)
    | .repL a lo hi =>
      match lo, hi with
      | 0, some 0 => [(s, caps)]
      | 0, some (h + 1) =>
        (s, caps) :: (matList ci fuel a gi s caps).flatMap
          (fun p => matList ci fuel (.repL a 0 (some h)) gi p.1 p.2)
      | 0, none =>
        (s, caps) :: (matList ci fuel a gi s caps).flatMap
          (fun p => matList ci fuel (.repL a 0 none) gi p.1 p.2)
      | _ + 1, some 0 => []
      | l + 1, some (h + 1) =>
        (matList ci fuel a gi s caps).flatMap
          (fun p => matList ci fuel (.repL a l (some h)) gi p.1 p.2)
      | l + 1, none =>
        (matList ci fuel a gi s caps).flatMap
          (fun p => matList ci fuel (.repL a l none) gi p.1 p.2)

/-! ## search, finditer and group access -/

/-- A successful match: start offset in the searched text, the matched
characters, and the captures. -/
structure RMatch where
  start : Nat
  matched : List Char
  caps : Caps
deriving DecidableEq

/-- A size for the fuel bound: it never increases along any recursive
call of matList and strictly decreases except when an unbounded
repetition unrolls. -/
def RE.fuelSize : RE → Nat
  | .eps | .ch _ | .cc _ => 1
  | .seq a b => a.fuelSize + b.fuelSize + 1
  | .grp a => a.fuelSize + 1
  | .repG a lo hi => a.fuelSize + lo + (match hi with | some h => h | none => 0) + 2
  | .repL a lo hi => a.fuelSize + lo + (match hi with | some h => h | none => 0) + 2

/-- Fuel that strictly exceeds the depth of every backtracking path for
the repository patterns: an unbounded repetition whose body consumes at
least one character can unroll at most once per remaining character
(plus one failing attempt), every other step shrinks fuelSize, and
fuelSize never grows along a call. -/
def fuelFor (re : RE) (s : List Char) : Nat := (s.length + 2) * (re.fuelSize + 2)

/-- re.search: try the pattern at every start position from left to right
and commit to the leftmost position that matches, taking the highest
priority alternative there. -/
def searchAux (ci : Bool) (re : RE) : List Char → Nat → Option RMatch
  | s, i =>
    match (matList ci (fuelFor re s) re 1 s []).head? with
    | some p => some ⟨i, s.take (s.length - p.1.length), p.2⟩
    | none =>
      match s with
      | [] => none
      | _ :: t => searchAux ci re t (i + 1)

/-- re.search on a character list. -/
def reSearch (ci : Bool) (re : RE) (s : List Char) : Option RMatch :=
  searchAux ci re s 0

/-- match.group: group 0 is the whole match; a positive index looks up the
capture map and is none when the group did not participate in the match. -/
def groupOf (m : RMatch) (g : Nat) : Option (List Char) :=
  if g = 0 then some m.matched
  else (m.caps.find? (fun p => p.1 == g)).map (fun p => p.2)

/-- re.finditer: repeatedly search, resuming after the end of each match
(one character further when the match is empty).  off is the absolute
offset of the current suffix; fuel bounds the number of matches and is
sufficient when set to the text length plus one. -/
def finditerAux (ci : Bool) (re : RE) : Nat → List Char → Nat → List RMatch
  | 0, _, _ => []
  | fuel + 1, s, off =>
    match reSearch ci re s with
    | none => []
    | some m =>
      let adv := m.start + max 1 m.matched.length
      ⟨off + m.start, m.matched, m.caps⟩ :: finditerAux ci re fuel (s.drop adv) (off + adv)

/-- re.finditer over a character list. -/
def finditer (ci : Bool) (re : RE) (s : List Char) : List RMatch :=
  finditerAux ci re (s.length + 1) s 0

/-! ## String helpers -/

/-- Python str.strip: remove whitespace from both ends. -/
def pyStrip (cs : List Char) : List Char :=
  ((cs.dropWhile (fun c => isWs c)).reverse.dropWhile (fun c => isWs c)).reverse

/-- Python str.replace(kw, ""): remove every occurrence of kw, scanning
left to right without overlap.  (The repository only calls this with a
non-empty kw.)  The fuel makes the recursion structural; a non-empty kw
shortens the list on every step, so fuel equal to the length of the
scanned list is always sufficient. -/
def removeAllAux (kw : List Char) : Nat → List Char → List Char
  | 0, s => s
  | _, [] => []
  | fuel + 1, c :: rest =>
    if !kw.isEmpty && kw.isPrefixOf (c :: rest) then
      removeAllAux kw fuel ((c :: rest).drop kw.length)
    else
      c :: removeAllAux kw fuel rest

/-- Python str.replace(kw, "") on a character list. -/
def removeAll (kw s : List Char) : List Char := removeAllAux kw s.length s

/-- Python str.split(sep) for a one-character separator. -/
def splitOnChar (sep : Char) : List Char → List (List Char)
  | [] => [[]]
  | c :: rest =>
    let r := splitOnChar sep rest
    if c = sep then [] :: r
    else
      match r with
      | [] => [[c]]
      | h :: t => (c :: h) :: t

/-- Python str.lower, modelled on ASCII letters. -/
def pyLower (cs : List Char) : List Char := cs.map fold

/-- Python substring containment (the `in` operator on str). -/
def isSubstr (needle : List Char) : List Char → Bool
  | [] => needle.isEmpty
  | c :: t => needle.isPrefixOf (c :: t) || isSubstr needle t

/-- Numeric value of a list of decimal digits. -/
def natOfDigits (cs : List Char) : Nat :=
  cs.foldl (fun a c => 10 * a + (c.toNat - 48)) 0

/-- decimal.Decimal applied to a string: surrounding whitespace is allowed,
then an optional integer part, an optional dot and an optional fractional
part, with at least one digit overall; anything else raises
InvalidOperation.  (The repository never passes signed or exponent
notation.) -/
def decimalOfString (s : String) : Except String ℚ :=
  let cs := pyStrip s.data
  match splitOnChar '.' cs with
  | [a] =>
    if !a.isEmpty && a.all Char.isDigit then .ok (natOfDigits a)
    else .error ("InvalidOperation: " ++ s)
  | [a, b] =>
    if (!a.isEmpty || !b.isEmpty) && a.all Char.isDigit && b.all Char.isDigit then
      .ok ((natOfDigits a : ℚ) + (natOfDigits b : ℚ) / ((10 : ℚ) ^ b.length))
    else .error ("InvalidOperation: " ++ s)
  | _ => .error ("InvalidOperation: " ++ s)

/-- Rounding to an integer with ties to even, the default Decimal
rounding mode used by quantize. -/
def roundHalfEven (q : ℚ) : ℤ :=
  let f : ℤ := ⌊q⌋
  let r : ℚ := q - (f : ℚ)
  if r < 1 / 2 then f
  else if 1 / 2 < r then f + 1
  else if f % 2 = 0 then f else f + 1

/-- Decimal.quantize(Decimal("0.01")): round to two decimal places with
ties to even. -/
def quantize2 (q : ℚ) : ℚ := (roundHalfEven (q * 100) : ℚ) / 100

/-! ## RegexExtractor (src/parsers/extractors/regex_extractor.py) -/

/-- RegexExtractor.clean_czech_number: drop spaces (thousands separators)
and turn every comma into a decimal dot. -/
def clean_czech_number (v : String) : String :=
  String.mk ((v.data.filter (fun c => c ≠ ' ')).map (fun c => if c = ',' then '.' else c))

/-- RegexExtractor.extract_first_match: search once and return the
requested group; the caller receives none both when the pattern does not
match and when the group index exceeds the groups of the pattern (the
IndexError is caught) and also when the group did not participate. -/
def extract_first_match (text : String) (re : RE) (g : Nat) : Option String :=
  match reSearch false re text.data with
  | none => none
  | some m => if g > re.numGroups then none else (groupOf m g).map String.mk

/-- The three internally distinguished outcomes of extract_first_match:
success (logged at debug severity, with the group value, possibly none),
an invalid group index (IndexError caught, logged at warning severity),
and no match (logged at debug severity). -/
inductive MatchOutcome where
  | success : Option String → MatchOutcome
  | invalidGroup : MatchOutcome
  | noMatch : MatchOutcome
deriving DecidableEq

/-- Which of the three branches of extract_first_match runs. -/
def extractFirstOutcome (text : String) (re : RE) (g : Nat) : MatchOutcome :=
  match reSearch false re text.data with
  | none => .noMatch
  | some m =>
    if g > re.numGroups then .invalidGroup
    else .success ((groupOf m g).map String.mk)

/-- RegexExtractor.extract_all_matches: every match of finditer in
document order, keeping the requested group (none for a non-participating
group, as Python appends None) and skipping matches only on IndexError,
which for a fixed pattern means the whole list is skipped exactly when
the index exceeds the groups of the pattern. -/
def extract_all_matches (text : String) (re : RE) (g : Nat) : List (Option String) :=
  (finditer false re text.data).filterMap
    (fun m => if g > re.numGroups then none else some ((groupOf m g).map String.mk))

/-- Exact repetition {n}. -/
def repEx (r : RE) (n : Nat) : RE := .repG r n (some n)

/-- The pattern (\d{2}\.\d{2}\.\d{4}) of extract_czech_date. -/
def czechDatePat : RE :=
  .grp (.seq (repEx (.cc .digit) 2) (.seq (.ch '.')
    (.seq (repEx (.cc .digit) 2) (.seq (.ch '.') (repEx (.cc .digit) 4)))))

/-- RegexExtractor.extract_czech_date: first DD.MM.YYYY-shaped literal. -/
def extract_czech_date (text : String) : Option String :=
  extract_first_match text czechDatePat 1

/-- The pattern IČO[:\s]*(\d{8}) of extract_ic. -/
def icPat : RE :=
  .seq (litStr "IČO".data)
    (.seq (.repG (.cc .spaceColon) 0 none) (.grp (repEx (.cc .digit) 8)))

/-- RegexExtractor.extract_ic. -/
def extract_ic (text : String) : Option String := extract_first_match text icPat 1

/-- The pattern DIČ[:\s]*(CZ\d{8,10}) of extract_dic. -/
def dicPat : RE :=
  .seq (litStr "DIČ".data)
    (.seq (.repG (.cc .spaceColon) 0 none)
      (.grp (.seq (litStr "CZ".data) (.repG (.cc .digit) 8 (some 10)))))

/-- RegexExtractor.extract_dic. -/
def extract_dic (text : String) : Option String := extract_first_match text dicPat 1

/-! ## KeywordExtractor (src/parsers/extractors/keyword_extractor.py) -/

/-- The glue [\s:]* that find_text_after_keyword inserts between the
escaped keyword and the value pattern. -/
def spaceColonStar : RE := .repG (.cc .spaceColon) 0 none

/-- The composed search pattern keyword-escaped [\s:]* pattern. -/
def composedPat (kw : List Char) (pat : RE) : RE :=
  .seq (litStr kw) (.seq spaceColonStar pat)

/-- The tail ([^\n]+) used when no value pattern is supplied. -/
def noPatternTail : RE := .grp (.repG (.cc .notNl) 1 none)

/-- KeywordExtractor.find_text_after_keyword.  The search is
case-insensitive.  With a pattern that has capturing groups the first
group is returned stripped; if that group did not participate, Python
calls None.strip() and the AttributeError escapes, which the Except
error models.  With a group-free pattern the full match is returned
after str.replace(keyword, "") — a case-sensitive removal of every
occurrence — and strip.  Without a pattern the rest of the line after
the keyword is captured by ([^\n]+) and returned stripped.  When
nothing matches the result is none, not an exception. -/
def find_text_after_keyword (text kw : String) (pat : Option RE) :
    Except String (Option String) :=
  match pat with
  | some p =>
    match reSearch true (composedPat kw.data p) text.data with
    | none => .ok none
    | some m =>
      if p.numGroups ≥ 1 then
        match groupOf m 1 with
        | some g => .ok (some (String.mk (pyStrip g)))
        | none => .error "AttributeError: NoneType has no attribute strip"
      else .ok (some (String.mk (pyStrip (removeAll kw.data m.matched))))
  | none =>
    match reSearch true (composedPat kw.data noPatternTail) text.data with
    | none => .ok none
    | some m =>
      match groupOf m 1 with
      | some g => .ok (some (String.mk (pyStrip g)))
      | none => .error "AttributeError: NoneType has no attribute strip"

/-! ## Calendar dates (datetime.date) -/

/-- A calendar date as validated by datetime. -/
structure PDate where
  year : Nat
  month : Nat
  day : Nat
deriving DecidableEq

/-- Gregorian leap year. -/
def isLeap (y : Nat) : Bool := y % 4 = 0 && (y % 100 ≠ 0 || y % 400 = 0)

/-- Length of a month. -/
def daysInMonth (y m : Nat) : Nat :=
  if m = 2 then (if isLeap y then 29 else 28)
  else if m = 4 || m = 6 || m = 9 || m = 11 then 30
  else 31

/-- Days in year y that precede month m. -/
def daysBeforeMonth (y m : Nat) : Nat :=
  (List.range (m - 1)).foldl (fun a i => a + daysInMonth y (i + 1)) 0

/-- datetime.date.toordinal: day count in the proleptic Gregorian
calendar with 0001-01-01 as day 1.  Python computes date differences as
the difference of ordinals. -/
def toOrdinal (d : PDate) : Nat :=
  365 * (d.year - 1) + (d.year - 1) / 4 - (d.year - 1) / 100 + (d.year - 1) / 400
    + daysBeforeMonth d.year d.month + d.day

/-- PhoenixParser._parse_czech_date: datetime.strptime with format
%d.%m.%Y on the DD.MM.YYYY literals the date regex produces, validating
that the literal is a real calendar date (datetime requires year at
least 1); an invalid literal raises, embedded as an error. -/
def parse_czech_date (s : String) : Except String PDate :=
  match s.data with
  | [d1, d2, p1, m1, m2, p2, y1, y2, y3, y4] =>
    if p1 = '.' && p2 = '.' && [d1, d2, m1, m2, y1, y2, y3, y4].all Char.isDigit then
      let d := natOfDigits [d1, d2]
      let m := natOfDigits [m1, m2]
      let y := natOfDigits [y1, y2, y3, y4]
      if 1 ≤ y && 1 ≤ m && m ≤ 12 && 1 ≤ d && d ≤ daysInMonth y m then
        .ok ⟨y, m, d⟩
      else .error ("Invalid date format: " ++ s)
    else .error ("Invalid date format: " ++ s)
  | _ => .error ("Invalid date format: " ++ s)

/-! ## Validation messages (src/models/validation_result.py) -/

/-- ValidationSeverity. -/
inductive ValidationSeverity where
  | error : ValidationSeverity
  | warning : ValidationSeverity
  | info : ValidationSeverity
deriving DecidableEq

/-- ValidationMessage. -/
structure ValidationMessage where
  severity : ValidationSeverity
  field : Option String
  message : String
  code : Option String
  context : Option (List (String × String))
deriving DecidableEq

/-- ValidationResult. -/
structure ValidationResult where
  is_valid : Bool
  errors : List ValidationMessage
  warnings : List ValidationMessage
  info : List ValidationMessage
deriving DecidableEq

/-- ValidationResult.has_warnings. -/
def ValidationResult.has_warnings (r : ValidationResult) : Bool := r.warnings.length > 0

/-- ValidationResult.has_errors. -/
def ValidationResult.has_errors (r : ValidationResult) : Bool := r.errors.length > 0

/-- ValidationResult.message_count. -/
def ValidationResult.message_count (r : ValidationResult) : Nat :=
  r.errors.length + r.warnings.length + r.info.length

/-- ValidationResult.add_error: append an error message and mark the
result invalid. -/
def ValidationResult.add_error (r : ValidationResult) (message : String)
    (field code : Option String) (context : Option (List (String × String))) :
    ValidationResult :=
  { r with
    errors := r.errors ++ [⟨.error, field, message, code, context⟩]
    is_valid := false }

/-- ValidationResult.add_warning: append a warning message. -/
def ValidationResult.add_warning (r : ValidationResult) (message : String)
    (field code : Option String) (context : Option (List (String × String))) :
    ValidationResult :=
  { r with warnings := r.warnings ++ [⟨.warning, field, message, code, context⟩] }

/-- ValidationResult.add_info: append an informational message. -/
def ValidationResult.add_info (r : ValidationResult) (message : String)
    (field code : Option String) (context : Option (List (String × String))) :
    ValidationResult :=
  { r with info := r.info ++ [⟨.info, field, message, code, context⟩] }

/-! ## Invoice models (src/models/parsed_invoice.py) -/

/-- VATBreakdown, with Decimal embedded as the rationals. -/
structure VATBreakdown where
  rate : ℚ
  base : ℚ
  amount : ℚ
deriving DecidableEq

/-- The VAT arithmetic invariant of VATBreakdown.validate_vat_calculation:
the amount is within 0.01 of the base times the rate quantized to two
decimals. -/
def vatCalcOk (rate base amount : ℚ) : Bool :=
  |amount - quantize2 (base * rate)| ≤ 1 / 100

/-- Pydantic construction of VATBreakdown: the rate validator, the ge=0
field constraints, and validate_vat_calculation, in field order; a
validator failure raises ValueError, embedded as an error. -/
def mkVATBreakdown (rate base amount : ℚ) : Except String VATBreakdown :=
  if rate = 21 / 100 ∨ rate = 12 / 100 ∨ rate = 0 then
    if base < 0 then .error "base must be greater than or equal to 0"
    else if amount < 0 then .error "amount must be greater than or equal to 0"
    else if vatCalcOk rate base amount then .ok ⟨rate, base, amount⟩
    else .error "VAT amount does not match expected"
  else .error "VAT rate must be one of the allowed values"

/-- SupplierInfo. -/
structure SupplierInfo where
  name : String
  ic : String
  dic : Option String
  street : Option String
  city : Option String
  zip : Option String
  country : Option String
deriving DecidableEq

/-- Length-limit test for an optional string field (absent fields pass). -/
def optTooLong (o : Option String) (n : Nat) : Bool :=
  match o with
  | some v => v.length > n
  | none => false

/-- Pydantic construction of SupplierInfo as the parser calls it (name,
ic, dic): length constraints and the validate_ic digit check. -/
def mkSupplierInfo (name ic : String) (dic : Option String) : Except String SupplierInfo :=
  if name.length > 255 then .error "name too long"
  else if ic.length ≠ 8 then .error "IČ must be exactly 8 characters"
  else if !(ic.data.all Char.isDigit) then .error "IČ must contain only digits"
  else if optTooLong dic 20 then .error "dic too long"
  else .ok ⟨name, ic, dic, none, none, none, none⟩

/-- ParsedInvoice, restricted to the fields the Phoenix parser sets and
the validators read; the remaining optional metadata fields
(description, note, line items and the invoice-type tags) keep their
defaults in every parse and are omitted. -/
structure ParsedInvoice where
  vendor : String
  invoice_number : String
  received_invoice_number : String
  issue_date : PDate
  due_date : PDate
  supply_date : PDate
  supplier : SupplierInfo
  customer : Option SupplierInfo
  vat_breakdowns : List VATBreakdown
  total_amount : ℚ
  variable_symbol : Option String
  constant_symbol : Option String
  specific_symbol : Option String
deriving DecidableEq

/-- ParsedInvoice.validate_due_date passes: the due date is not before
the issue date. -/
def dueDateOk (issue due : PDate) : Bool := !(toOrdinal due < toOrdinal issue)

/-- ParsedInvoice.validate_supply_date passes: the signed day difference
supply minus issue is at least -90 and at most 30. -/
def supplyDateOk (issue supply : PDate) : Bool :=
  let diff : ℤ := (toOrdinal supply : ℤ) - (toOrdinal issue : ℤ)
  !(diff < -90 || diff > 30)

/-- ParsedInvoice.validate_total_amount passes: the total is within 0.01
of the sum of base plus amount over the breakdown rows. -/
def totalOk (vbs : List VATBreakdown) (total : ℚ) : Bool :=
  |(vbs.map (fun r => r.base + r.amount)).sum - total| ≤ 1 / 100

/-- Pydantic construction of ParsedInvoice as the parser calls it:
length constraints and the three cross-field validators in field order;
any failure raises ValueError, embedded as an error. -/
def mkParsedInvoice (vendor invoice_number received_invoice_number : String)
    (issue due supply : PDate) (supplier : SupplierInfo) (vbs : List VATBreakdown)
    (total : ℚ) (variable_symbol : Option String) : Except String ParsedInvoice :=
  if invoice_number.length > 50 then .error "invoice_number too long"
  else if received_invoice_number.length > 50 then .error "received_invoice_number too long"
  else if !dueDateOk issue due then .error "Due date must be >= issue date"
  else if !supplyDateOk issue supply then
    .error "Supply date is unusually far from issue date"
  else if vbs.isEmpty then .error "vat_breakdowns must have at least 1 item"
  else if total < 0 then .error "total_amount must be greater than or equal to 0"
  else if !totalOk vbs total then .error "VAT breakdown sum does not match total amount"
  else if optTooLong variable_symbol 20 then .error "variable_symbol too long"
  else
    .ok ⟨vendor, invoice_number, received_invoice_number, issue, due, supply, supplier,
      none, vbs, total, variable_symbol, none, none⟩

/-- Pydantic assignment row.amount = a on a VATBreakdown instance:
VATBreakdown declares no validate_assignment model configuration (only
ParsedInvoice does), so no validator is re-run and the assignment always
succeeds without raising. -/
def assignAmount (r : VATBreakdown) (a : ℚ) : Except String VATBreakdown :=
  .ok { r with amount := a }

/-! ## PhoenixParser (src/parsers/vendors/phoenix_parser.py) -/

/-- Python text.split for the newline separator, used by the date
heuristics. -/
def splitLines (text : String) : List (List Char) := splitOnChar '\n' text.data

/-- The pattern \d+. -/
def digitsPlus : RE := .repG (.cc .digit) 1 none

/-- Python truthiness of an optional string: none and the empty string
are falsy. -/
def truthyStr (v : Option String) : Bool :=
  match v with
  | some s => !s.isEmpty
  | none => false

/-- The value pattern č\.\s*(\d+) of _extract_invoice_number. -/
def invNumInner : RE :=
  .seq (.ch 'č') (.seq (.ch '.') (.seq (.repG (.cc .wspace) 0 none) (.grp digitsPlus)))

/-- PhoenixParser._extract_invoice_number. -/
def extract_invoice_number (text : String) : Except String String := do
  let v ← find_text_after_keyword text "DAŇOVÝ DOKLAD" (some invNumInner)
  if truthyStr v then
    match extract_first_match (v.getD "") (.grp digitsPlus) 1 with
    | some m => pure m
    | none => .error ("Could not extract invoice number from: " ++ v.getD "")
  else .error "Invoice number not found"

/-- The label test of the _extract_issue_date line scan: the line
contains "Datum vystavení", or its lowercasing contains "vystavený". -/
def issueLabelLine (ln : List Char) : Bool :=
  isSubstr "Datum vystavení".data ln || isSubstr "vystavený".data (pyLower ln)

/-- First Czech date found in a list of lines (the inner loop of
_extract_issue_date over the three-line window). -/
def firstDateInLines : List (List Char) → Option String
  | [] => none
  | ln :: rest =>
    match extract_czech_date (String.mk ln) with
    | some d => some d
    | none => firstDateInLines rest

/-- The line scan of _extract_issue_date: at the first label line whose
three-line window (the line and the next two) holds a date, parse that
date; a label line with no date in its window is skipped and the scan
continues. -/
def issueLoop : List (List Char) → Except String PDate
  | [] => .error "Issue date not found"
  | ln :: rest =>
    if issueLabelLine ln then
      match firstDateInLines ((ln :: rest).take 3) with
      | some d => parse_czech_date d
      | none => issueLoop rest
    else issueLoop rest

/-- PhoenixParser._extract_issue_date: a whole-text date check first
(raising when the text holds no date literal at all), then the line
scan. -/
def extract_issue_date (text : String) : Except String PDate :=
  match extract_czech_date text with
  | none => .error "Issue date not found"
  | some _ => issueLoop (splitLines text)

/-- The label test of the _extract_supply_date line scan: the lowercased
line contains both "zdanit" and "plnění". -/
def taxLabelLine (ln : List Char) : Bool :=
  isSubstr "zdanit".data (pyLower ln) && isSubstr "plnění".data (pyLower ln)

/-- All dates collected from a window of lines, at most one per line
(the inner loop of _extract_supply_date). -/
def datesInLines (ls : List (List Char)) : List String :=
  ls.filterMap (fun ln => extract_czech_date (String.mk ln))

/-- The line scan of _extract_supply_date: at the first tax-point label
line, collect the dates of the five-line window (the line and the next
four); with two or more dates the second is the supply date, with
exactly one that one is, and with none the scan continues. -/
def supplyLoop : List (List Char) → Except String PDate
  | [] => .error "Supply date not found"
  | ln :: rest =>
    if taxLabelLine ln then
      match datesInLines ((ln :: rest).take 5) with
      | _ :: d2 :: _ => parse_czech_date d2
      | [d] => parse_czech_date d
      | [] => supplyLoop rest
    else supplyLoop rest

/-- PhoenixParser._extract_supply_date. -/
def extract_supply_date (text : String) : Except String PDate :=
  supplyLoop (splitLines text)

/-- PhoenixParser._extract_due_date. -/
def extract_due_date (text : String) : Except String PDate := do
  let v ← find_text_after_keyword text "DATUM SPLATNOSTI:" (some czechDatePat)
  if truthyStr v then parse_czech_date (v.getD "")
  else .error "Due date not found"

/-- PhoenixParser._extract_variable_symbol: optional, never a parse
failure by itself. -/
def extract_variable_symbol (text : String) : Except String (Option String) :=
  find_text_after_keyword text "variabilní symbol" (some (.grp digitsPlus))

/-- PhoenixParser._extract_supplier_info. -/
def extract_supplier_info (text : String) : Except String SupplierInfo := do
  let nv ← find_text_after_keyword text "Dodavatel:" none
  if truthyStr nv then
    let name := String.mk (pyStrip ((splitOnChar '\n' (nv.getD "").data).headD []))
    if truthyStr (extract_ic text) then
      if truthyStr (extract_dic text) then
        mkSupplierInfo name ((extract_ic text).getD "") (extract_dic text)
      else .error "Supplier DIČ not found"
    else .error "Supplier IČO not found"
  else .error "Supplier name not found"

/-- The number shape [\d\s]+,\d{2} of the amount patterns. -/
def numPat : RE :=
  .seq (.repG (.cc .digitSpace) 1 none) (.seq (.ch ',') (repEx (.cc .digit) 2))

/-- The pattern of _extract_vat_base for a rate literal:
rate%[\s\S]{0,100}?([\d\s]+,\d{2}). -/
def vatBasePat (rate : String) : RE :=
  .seq (litStr rate.data)
    (.seq (.ch '%') (.seq (.repL (.cc .anyc) 0 (some 100)) (.grp numPat)))

/-- The pattern of _extract_vat_amount for a rate literal:
rate%[\s\S]{0,100}?[\d\s]+,\d{2}[\s\S]{0,50}?([\d\s]+,\d{2}). -/
def vatAmountPat (rate : String) : RE :=
  .seq (litStr rate.data)
    (.seq (.ch '%') (.seq (.repL (.cc .anyc) 0 (some 100))
      (.seq numPat (.seq (.repL (.cc .anyc) 0 (some 50)) (.grp numPat)))))

/-- PhoenixParser._extract_vat_base: all matches, then the last one
cleaned and read as a Decimal; no match gives none.  (The unreachable
error arm embeds the TypeError Python would raise if the kept group had
not participated.) -/
def extract_vat_base (text rate : String) : Except String (Option ℚ) :=
  match (extract_all_matches text (vatBasePat rate) 1).getLast? with
  | none => .ok none
  | some none => .error "TypeError: clean of None"
  | some (some m) => (decimalOfString (clean_czech_number m)).map some

/-- PhoenixParser._extract_vat_amount: as extract_vat_base but with the
pair pattern, keeping the second number of the last pair. -/
def extract_vat_amount (text rate : String) : Except String (Option ℚ) :=
  match (extract_all_matches text (vatAmountPat rate) 1).getLast? with
  | none => .ok none
  | some none => .error "TypeError: clean of None"
  | some (some m) => (decimalOfString (clean_czech_number m)).map some

/-- Python truthiness of an optional Decimal: none and zero are falsy. -/
def truthyDec (v : Option ℚ) : Bool :=
  match v with
  | some q => q != 0
  | none => false

/-- One conditional row of _extract_vat_breakdown: when the guard is
truthy, construct the VATBreakdown for the rate (whose validators can
raise) and contribute it as a one-row list, otherwise contribute no
row. -/
def ratePart (cond : Bool) (rate : ℚ) (b v : Option ℚ) :
    Except String (List VATBreakdown) :=
  if cond then (mkVATBreakdown rate (b.getD 0) (v.getD 0)).map (fun r => [r])
  else pure []

/-- PhoenixParser._extract_vat_breakdown: the 21 percent row when base
and amount are truthy, the 12 percent row when base and amount are
truthy, the 0 percent row (with amount zero, the guard looking only at
the base) when the base is truthy; an empty list is the parse failure
"No VAT breakdown found". -/
def extract_vat_breakdown (text : String) : Except String (List VATBreakdown) := do
  let base21 ← extract_vat_base text "21"
  let vat21 ← extract_vat_amount text "21"
  let rows21 ← ratePart (truthyDec base21 && truthyDec vat21) (21 / 100) base21 vat21
  let base12 ← extract_vat_base text "12"
  let vat12 ← extract_vat_amount text "12"
  let rows12 ← ratePart (truthyDec base12 && truthyDec vat12) (12 / 100) base12 vat12
  let base0 ← extract_vat_base text "0"
  let rows0 ← ratePart (truthyDec base0) 0 base0 (some 0)
  let vbs := rows21 ++ rows12 ++ rows0
  if vbs.isEmpty then .error "No VAT breakdown found" else pure vbs

/-- PhoenixParser._extract_total_amount. -/
def extract_total_amount (text : String) : Except String ℚ := do
  let v ← find_text_after_keyword text "ČÁSTKA K ÚHRADĚ:" (some (.grp numPat))
  if truthyStr v then decimalOfString (clean_czech_number (v.getD ""))
  else .error "Total amount not found"

/-- The body of PhoenixParser.parse on the extracted full text: the
fixed extraction order of the source, then the ParsedInvoice
construction, with the invoice number reused as the received number. -/
def parsePipeline (text : String) : Except String ParsedInvoice := do
  let invoice_number ← extract_invoice_number text
  let issue_date ← extract_issue_date text
  let due_date ← extract_due_date text
  let supply_date ← extract_supply_date text
  let variable_symbol ← extract_variable_symbol text
  let supplier ← extract_supplier_info text
  let vat_breakdowns ← extract_vat_breakdown text
  let total_amount ← extract_total_amount text
  mkParsedInvoice "Phoenix" invoice_number invoice_number issue_date due_date
    supply_date supplier vat_breakdowns total_amount variable_symbol

/-- PhoenixParser.parse on the full text of a loaded document: any
failure inside the pipeline is wrapped into the single PDFParseError the
caller sees; no partially built record can escape. -/
def parsePhoenix (text : String) : Except String ParsedInvoice :=
  match parsePipeline text with
  | .ok inv => .ok inv
  | .error e => .error ("Failed to parse Phoenix invoice: " ++ e)

/-! ## ValidationEngine -/

/-- Format check on the supplier company identifier: exactly 8 digits. -/
def icFormatOk (ic : String) : Bool := ic.length = 8 && ic.data.all Char.isDigit

/-- Check 1 of the engine: one VAT_MISMATCH error per breakdown row that
violates the VAT arithmetic invariant. -/
def vatCheck (rows : List VATBreakdown) (r : ValidationResult) : ValidationResult :=
  rows.foldl
    (fun acc row =>
      if vatCalcOk row.rate row.base row.amount then acc
      else acc.add_error "VAT amount does not match base times rate"
        (some "vat_breakdowns") (some "VAT_MISMATCH") none)
    r

/-- Modelled from the spec: the ValidationEngine of section 4.7 is not
among the repository sources under src (only the ValidationResult model
it fills is); it runs five ordered checks over an assembled record, each
appending severity-classified messages instead of halting: VAT
arithmetic per row (error VAT_MISMATCH), total reconciliation (error
TOTAL_MISMATCH), date ordering, the supply-date plausibility window, and
the identifier format, starting from a fresh valid result. -/
def validateRecord (inv : ParsedInvoice) : ValidationResult :=
  let r0 : ValidationResult := ⟨true, [], [], []⟩
  let r1 := vatCheck inv.vat_breakdowns r0
  let r2 :=
    if totalOk inv.vat_breakdowns inv.total_amount then r1
    else r1.add_error "total amount does not match VAT breakdown sum"
      (some "total_amount") (some "TOTAL_MISMATCH") none
  let r3 :=
    if dueDateOk inv.issue_date inv.due_date then r2
    else r2.add_error "due date before issue date" (some "due_date") none none
  let r4 :=
    if supplyDateOk inv.issue_date inv.supply_date then r3
    else r3.add_error "supply date outside the plausibility window"
      (some "supply_date") none none
  if icFormatOk inv.supplier.ic then r4
  else r4.add_error "supplier identifier is not 8 digits" (some "supplier") none none

/-! ## Mutation sequences over a ValidationResult (for the accumulation
invariant) -/

/-- One mutating call on a ValidationResult. -/
inductive VOp where
  | addErr : String → Option String → Option String →
      Option (List (String × String)) → VOp
  | addWarn : String → Option String → Option String →
      Option (List (String × String)) → VOp
  | addInfo : String → Option String → Option String →
      Option (List (String × String)) → VOp

/-- Apply one mutating call. -/
def applyVOp (r : ValidationResult) : VOp → ValidationResult
  | .addErr m f c ctx => r.add_error m f c ctx
  | .addWarn m f c ctx => r.add_warning m f c ctx
  | .addInfo m f c ctx => r.add_info m f c ctx

/-- Apply a sequence of mutating calls in order. -/
def runVOps (r : ValidationResult) (ops : List VOp) : ValidationResult :=
  ops.foldl applyVOp r

/-- The fixed message check 1 of the engine appends for a bad row. -/
def vatMismatchMsg : ValidationMessage :=
  ⟨.error, some "vat_breakdowns", "VAT amount does not match base times rate",
    some "VAT_MISMATCH", none⟩

deriving instance DecidableEq for Except

/-! ## Helper lemmas -/

theorem add_error_is_valid (r : ValidationResult) (m : String) (f c : Option String)
    (ctx : Option (List (String × String))) : (r.add_error m f c ctx).is_valid = false := rfl

theorem add_error_errors (r : ValidationResult) (m : String) (f c : Option String)
    (ctx : Option (List (String × String))) :
    (r.add_error m f c ctx).errors = r.errors ++ [⟨.error, f, m, c, ctx⟩] := rfl

theorem runVOps_preserves (ops : List VOp) :
    ∀ r : ValidationResult, (r.is_valid = true ↔ r.errors = []) →
      ((runVOps r ops).is_valid = true ↔ (runVOps r ops).errors = []) := by
  induction ops with
  | nil => exact fun r h => h
  | cons op rest ih =>
    intro r h
    have hstep : ((applyVOp r op).is_valid = true ↔ (applyVOp r op).errors = []) := by
      cases op with
      | addErr m f c ctx =>
        simp [applyVOp, ValidationResult.add_error]
      | addWarn m f c ctx =>
        simpa [applyVOp, ValidationResult.add_warning] using h
      | addInfo m f c ctx =>
        simpa [applyVOp, ValidationResult.add_info] using h
    simpa [runVOps, List.foldl_cons] using ih (applyVOp r op) hstep

theorem isPrefixOf_append_self : ∀ n b : List Char, n.isPrefixOf (n ++ b) = true := by
  intro n
  induction n with
  | nil => intro b; simp [List.isPrefixOf]
  | cons c cs ih => intro b; simp [List.isPrefixOf, ih]

theorem isSubstr_sandwich : ∀ a n b : List Char, isSubstr n (a ++ n ++ b) = true := by
  intro a
  induction a with
  | nil =>
    intro n b
    cases n with
    | nil => cases b <;> simp [isSubstr]
    | cons c cs => simp [isSubstr, isPrefixOf_append_self]
  | cons c cs ih =>
    intro n b
    have hstep : isSubstr n ((c :: cs) ++ n ++ b)
        = (n.isPrefixOf ((c :: cs) ++ n ++ b) || isSubstr n (cs ++ n ++ b)) := rfl
    rw [hstep, ih n b, Bool.or_true]

theorem mem_of_head_eq {α : Type} {l : List α} {a : α} (h : l.head? = some a) :
    a ∈ l := by
  cases l with
  | nil => simp at h
  | cons x xs =>
    simp only [List.head?_cons, Option.some.injEq] at h
    subst h
    exact List.mem_cons_self _ _

theorem litStr_matches (kw : List Char) :
    ∀ (fuel gi : Nat) (s : List Char) (caps : Caps) (p : List Char × Caps),
      p ∈ matList true fuel (litStr kw) gi s caps →
      ∃ pre, s = pre ++ p.1 ∧ pyLower pre = pyLower kw ∧ p.2 = caps := by
  induction kw with
  | nil =>
    intro fuel gi s caps p hp
    cases fuel with
    | zero => simp [matList] at hp
    | succ n =>
      simp only [litStr, matList, List.mem_singleton] at hp
      subst hp
      exact ⟨[], rfl, rfl, rfl⟩
  | cons c cs ih =>
    intro fuel gi s caps p hp
    cases fuel with
    | zero => simp [matList] at hp
    | succ n =>
      simp only [litStr, matList] at hp
      rw [List.mem_flatMap] at hp
      obtain ⟨q, hq, hp2⟩ := hp
      cases n with
      | zero => simp [matList] at hq
      | succ n2 =>
        cases s with
        | nil => simp [matList] at hq
        | cons c' s' =>
          simp only [matList] at hq
          by_cases hc : chEq true c c' = true
          · rw [if_pos hc] at hq
            simp only [List.mem_singleton] at hq
            subst hq
            obtain ⟨pre', h1, h2, h3⟩ := ih _ _ _ _ _ hp2
            refine ⟨c' :: pre', ?_, ?_, h3⟩
            · simpa using congrArg (fun l => c' :: l) h1
            · have hcc : fold c = fold c' := by
                simpa [chEq] using hc
              simp only [pyLower] at h2
              simp [pyLower, hcc, h2]
          · rw [if_neg hc] at hq
            simp at hq

theorem searchAux_ci_substr (kw : List Char) (tail : RE) :
    ∀ (s : List Char) (i : Nat) (m : RMatch),
      searchAux true (.seq (litStr kw) tail) s i = some m →
      isSubstr (pyLower kw) (pyLower s) = true := by
  intro s
  induction s with
  | nil =>
    intro i m h
    rw [searchAux] at h
    cases hh : (matList true (fuelFor (.seq (litStr kw) tail) []) (.seq (litStr kw) tail)
        1 [] []).head? with
    | none => rw [hh] at h; simp at h
    | some p =>
      have hp := mem_of_head_eq hh
      cases hfuel : fuelFor (.seq (litStr kw) tail) [] with
      | zero => rw [hfuel] at hp; simp [matList] at hp
      | succ n =>
        rw [hfuel] at hp
        simp only [matList] at hp
        rw [List.mem_flatMap] at hp
        obtain ⟨q, hq, _⟩ := hp
        obtain ⟨pre, h1, h2, _⟩ := litStr_matches kw _ _ _ _ _ hq
        obtain ⟨hpre, _⟩ := List.append_eq_nil.mp h1.symm
        subst hpre
        have hk : pyLower kw = [] := h2.symm
        rw [hk]
        rfl
  | cons c t ih =>
    intro i m h
    rw [searchAux] at h
    cases hh : (matList true (fuelFor (.seq (litStr kw) tail) (c :: t))
        (.seq (litStr kw) tail) 1 (c :: t) []).head? with
    | none =>
      rw [hh] at h
      simp only at h
      have hsub := ih (i + 1) m h
      simp only [pyLower, List.map_cons] at hsub ⊢
      simp [isSubstr, hsub]
    | some p =>
      have hp := mem_of_head_eq hh
      cases hfuel : fuelFor (.seq (litStr kw) tail) (c :: t) with
      | zero => rw [hfuel] at hp; simp [matList] at hp
      | succ n =>
        rw [hfuel] at hp
        simp only [matList] at hp
        rw [List.mem_flatMap] at hp
        obtain ⟨q, hq, _⟩ := hp
        obtain ⟨pre, h1, h2, _⟩ := litStr_matches kw _ _ _ _ _ hq
        rw [h1, ← h2]
        have hsplit : pyLower (pre ++ q.1) = [] ++ pyLower pre ++ pyLower q.1 := by
          simp [pyLower]
        rw [hsplit]
        exact isSubstr_sandwich [] (pyLower pre) (pyLower q.1)

/-- C8 (corrected): find_text_after_keyword searches case-insensitively
for the keyword followed, across optional whitespace or colons, by the
pattern; with capturing groups it returns the first group stripped; with
a group-free pattern it returns the full match after removing every
case-sensitive occurrence of the keyword string and stripping — which
strips the keyword prefix only when the keyword matched in its exact
case; and when the keyword does not occur in the text even
case-insensitively, the result is not-found, not an exception. -/
theorem c8_find_text_after_keyword (text kw : String) (p : RE) :
    (reSearch true (composedPat kw.data p) text.data = none →
      find_text_after_keyword text kw (some p) = .ok none)
    ∧ (∀ m : RMatch, reSearch true (composedPat kw.data p) text.data = some m →
        (p.numGroups = 0 →
          find_text_after_keyword text kw (some p)
            = .ok (some (String.mk (pyStrip (removeAll kw.data m.matched)))))
        ∧ (∀ g : List Char, 1 ≤ p.numGroups → groupOf m 1 = some g →
          find_text_after_keyword text kw (some p)
            = .ok (some (String.mk (pyStrip g)))))
    ∧ (isSubstr (pyLower kw.data) (pyLower text.data) = false →
      find_text_after_keyword text kw (some p) = .ok none) := by
  refine ⟨?_, ?_, ?_⟩
  · intro h
    rw [find_text_after_keyword, h]
  · intro m hm
    constructor
    · intro h0
      rw [find_text_after_keyword, hm]
      simp [h0]
    · intro g h1 hg
      rw [find_text_after_keyword, hm]
      simp [hg, h1]
  · intro habs
    cases hs : reSearch true (composedPat kw.data p) text.data with
    | none => rw [find_text_after_keyword, hs]
    | some m =>
      exfalso
      have := searchAux_ci_substr kw.data (.seq spaceColonStar p) text.data 0 m hs
      rw [this] at habs
      exact Bool.true_eq_false.mp habs

/-- C8, counterexample to the claim as stated: the keyword "AB" matches
the text "ab: 12" case-insensitively and the group-free pattern \d+
matches, but the returned value is the whole match "ab: 12" — the
case-sensitive str.replace removes nothing — not the keyword-prefix-
stripped ": 12" the claim describes. -/
theorem c8_counterexample :
    find_text_after_keyword "ab: 12" "AB" (some digitsPlus) = .ok (some "ab: 12")
    ∧ ("ab: 12" : String) ≠ ": 12" ∧ ("ab: 12" : String) ≠ "12" := by
  with_unfolding_all decide

theorem c8_witness :
    find_text_after_keyword "zzz" "AB" (some digitsPlus) = .ok none
    ∧ find_text_after_keyword "ab: 12" "AB" (some digitsPlus) = .ok (some "ab: 12")
    ∧ find_text_after_keyword "AB: 7x" "AB"
        (some (.grp digitsPlus)) = .ok (some "7") := by
  refine ⟨?_, ?_, ?_⟩
  · exact (c8_find_text_after_keyword "zzz" "AB" digitsPlus).2.2
      (by with_unfolding_all decide)
  · have h := ((c8_find_text_after_keyword "ab: 12" "AB" digitsPlus).2.1
      ⟨0, "ab: 12".data, []⟩ (by with_unfolding_all decide)).1 (by decide)
    rw [h]
    with_unfolding_all decide
  · have h := ((c8_find_text_after_keyword "AB: 7x" "AB" (.grp digitsPlus)).2.1
      ⟨0, "AB: 7".data, [(1, ['7'])]⟩ (by with_unfolding_all decide)).2
      ['7'] (by decide) (by decide)
    rw [h]
    with_unfolding_all decide

/-- C10: starting from a ValidationResult created valid and empty, after
any sequence of add_error, add_warning and add_info calls, is_valid holds
exactly when the errors list is empty; add_warning and add_info change
neither is_valid nor the errors list, and add_error always sets is_valid
to false. -/
theorem c10_validation_result_invariant :
    (∀ ops : List VOp,
      ((runVOps ⟨true, [], [], []⟩ ops).is_valid = true ↔
        (runVOps ⟨true, [], [], []⟩ ops).errors = []))
    ∧ (∀ (r : ValidationResult) (m : String) (f c : Option String)
        (ctx : Option (List (String × String))),
        (r.add_warning m f c ctx).is_valid = r.is_valid ∧
        (r.add_warning m f c ctx).errors = r.errors ∧
        (r.add_info m f c ctx).is_valid = r.is_valid ∧
        (r.add_info m f c ctx).errors = r.errors ∧
        (r.add_error m f c ctx).is_valid = false) := by
  constructor
  · intro ops
    exact runVOps_preserves ops ⟨true, [], [], []⟩ (by simp)
  · intro r m f c ctx
    exact ⟨rfl, rfl, rfl, rfl, rfl⟩

/-- C7 (corrected): the caller of extract_first_match receives none both
on an invalid group index (the IndexError branch, logged at warning
severity) and on no match (logged at debug severity); only the internal
outcome distinguishes the two cases, the returned value does not. -/
theorem c7_extract_first_failure_modes :
    ∀ (text : String) (re : RE) (g : Nat),
      (extractFirstOutcome text re g = .noMatch →
        extract_first_match text re g = none)
      ∧ (extractFirstOutcome text re g = .invalidGroup →
        extract_first_match text re g = none)
      ∧ (∀ v, extractFirstOutcome text re g = .success v →
        extract_first_match text re g = v) := by
  intro text re g
  unfold extractFirstOutcome extract_first_match
  cases hs : reSearch false re text.data with
  | none => exact ⟨fun _ => rfl, by simp, by simp⟩
  | some m =>
    by_cases hg : g > re.numGroups
    · simp [hg]
    · simp [hg]

/-- C7, counterexample to the claim as stated: on the pattern "a" the
text "b" yields the no-match outcome and group 0, while the text "a"
with group index 1 yields the invalid-group outcome, yet the caller
receives the same result (none) in both cases, so the two cases do not
yield distinct results to the caller. -/
theorem c7_counterexample :
    extractFirstOutcome "b" (.ch 'a') 0 = .noMatch
    ∧ extractFirstOutcome "a" (.ch 'a') 1 = .invalidGroup
    ∧ extract_first_match "b" (.ch 'a') 0 = extract_first_match "a" (.ch 'a') 1 := by
  decide

theorem mkVATBreakdown_ok (rate base amount : ℚ) (r : VATBreakdown) :
    mkVATBreakdown rate base amount = .ok r → r = ⟨rate, base, amount⟩ := by
  intro h
  rw [mkVATBreakdown] at h
  repeat' split at h
  all_goals simp_all

theorem ratePart_ok (cond : Bool) (rate : ℚ) (b v : Option ℚ)
    (rows : List VATBreakdown) (h : ratePart cond rate b v = .ok rows) :
    rows = (if cond then [⟨rate, b.getD 0, v.getD 0⟩] else []) := by
  cases cond with
  | false => simpa [ratePart, pure, Except.pure] using h.symm
  | true =>
    rw [ratePart, if_pos rfl] at h
    cases hm : mkVATBreakdown rate (b.getD 0) (v.getD 0) with
    | error e => rw [hm] at h; simp [Except.map] at h
    | ok r =>
      rw [hm] at h
      simp only [Except.map, Except.ok.injEq] at h
      rw [← h, mkVATBreakdown_ok _ _ _ _ hm]
      simp

theorem extract_vat_breakdown_spec (text : String) (rows : List VATBreakdown)
    (hok : extract_vat_breakdown text = .ok rows) :
    ∃ b21 v21 b12 v12 b0,
      extract_vat_base text "21" = .ok b21 ∧ extract_vat_amount text "21" = .ok v21 ∧
      extract_vat_base text "12" = .ok b12 ∧ extract_vat_amount text "12" = .ok v12 ∧
      extract_vat_base text "0" = .ok b0 ∧
      rows =
        (if truthyDec b21 && truthyDec v21 then
          [⟨21 / 100, b21.getD 0, v21.getD 0⟩] else [])
        ++ (if truthyDec b12 && truthyDec v12 then
          [⟨12 / 100, b12.getD 0, v12.getD 0⟩] else [])
        ++ (if truthyDec b0 then [⟨0, b0.getD 0, some 0 |>.getD 0⟩] else []) ∧
      rows ≠ [] := by
  rw [extract_vat_breakdown] at hok
  cases hb21 : extract_vat_base text "21" with
  | error e => rw [hb21] at hok; simp [bind, Except.bind] at hok
  | ok b21 =>
  rw [hb21] at hok
  simp only [bind, Except.bind] at hok
  cases hv21 : extract_vat_amount text "21" with
  | error e => rw [hv21] at hok; simp at hok
  | ok v21 =>
  rw [hv21] at hok
  simp only [bind, Except.bind] at hok
  cases h21 : ratePart (truthyDec b21 && truthyDec v21) (21 / 100) b21 v21 with
  | error e => rw [h21] at hok; simp at hok
  | ok rows21 =>
  rw [h21] at hok
  simp only [bind, Except.bind] at hok
  cases hb12 : extract_vat_base text "12" with
  | error e => rw [hb12] at hok; simp at hok
  | ok b12 =>
  rw [hb12] at hok
  simp only [bind, Except.bind] at hok
  cases hv12 : extract_vat_amount text "12" with
  | error e => rw [hv12] at hok; simp at hok
  | ok v12 =>
  rw [hv12] at hok
  simp only [bind, Except.bind] at hok
  cases h12 : ratePart (truthyDec b12 && truthyDec v12) (12 / 100) b12 v12 with
  | error e => rw [h12] at hok; simp at hok
  | ok rows12 =>
  rw [h12] at hok
  simp only [bind, Except.bind] at hok
  cases hb0 : extract_vat_base text "0" with
  | error e => rw [hb0] at hok; simp at hok
  | ok b0 =>
  rw [hb0] at hok
  simp only [bind, Except.bind] at hok
  cases h0 : ratePart (truthyDec b0) 0 b0 (some 0) with
  | error e => rw [h0] at hok; simp at hok
  | ok rows0 =>
  rw [h0] at hok
  simp only [bind, Except.bind] at hok
  cases hemp : (rows21 ++ rows12 ++ rows0).isEmpty with
  | true => rw [hemp] at hok; simp at hok
  | false =>
    rw [hemp] at hok
    simp only [Bool.false_eq_true, if_false, pure, Except.pure, Except.ok.injEq] at hok
    refine ⟨b21, v21, b12, v12, b0, rfl, rfl, rfl, rfl, rfl, ?_, ?_⟩
    · rw [← hok, ratePart_ok _ _ _ _ _ h21, ratePart_ok _ _ _ _ _ h12,
        ratePart_ok _ _ _ _ _ h0]
    · rw [← hok]
      intro hnil
      rw [hnil] at hemp
      simp at hemp

theorem extract_vat_breakdown_none (text : String) (b21 v21 b12 v12 b0 : Option ℚ)
    (hb21 : extract_vat_base text "21" = .ok b21)
    (hv21 : extract_vat_amount text "21" = .ok v21)
    (hb12 : extract_vat_base text "12" = .ok b12)
    (hv12 : extract_vat_amount text "12" = .ok v12)
    (hb0 : extract_vat_base text "0" = .ok b0)
    (hc21 : (truthyDec b21 && truthyDec v21) = false)
    (hc12 : (truthyDec b12 && truthyDec v12) = false)
    (hc0 : truthyDec b0 = false) :
    extract_vat_breakdown text = .error "No VAT breakdown found" := by
  simp [extract_vat_breakdown, hb21, hv21, hb12, hv12, hb0, hc21, hc12, hc0,
    ratePart, bind, Except.bind, pure, Except.pure]

theorem mkParsedInvoice_ok (vendor inum rnum : String) (issue due supply : PDate)
    (sup : SupplierInfo) (vbs : List VATBreakdown) (total : ℚ) (vs : Option String)
    (inv : ParsedInvoice)
    (h : mkParsedInvoice vendor inum rnum issue due supply sup vbs total vs = .ok inv) :
    inv = ⟨vendor, inum, rnum, issue, due, supply, sup, none, vbs, total, vs,
      none, none⟩ := by
  rw [mkParsedInvoice] at h
  repeat' split at h
  all_goals simp_all

/-- C5: parse either returns a fully constructed ParsedInvoice, whose
every field comes from the corresponding successful sub-extraction, or a
single wrapped parse error; whenever any required sub-extraction fails,
the whole parse fails and no record reaches the caller. -/
theorem c5_all_or_nothing (text : String) :
    (∀ inv : ParsedInvoice, parsePhoenix text = .ok inv →
      extract_invoice_number text = .ok inv.invoice_number
      ∧ extract_issue_date text = .ok inv.issue_date
      ∧ extract_due_date text = .ok inv.due_date
      ∧ extract_supply_date text = .ok inv.supply_date
      ∧ extract_variable_symbol text = .ok inv.variable_symbol
      ∧ extract_supplier_info text = .ok inv.supplier
      ∧ extract_vat_breakdown text = .ok inv.vat_breakdowns
      ∧ extract_total_amount text = .ok inv.total_amount
      ∧ inv.vendor = "Phoenix"
      ∧ inv.received_invoice_number = inv.invoice_number)
    ∧ (((∃ e, extract_invoice_number text = .error e)
        ∨ (∃ e, extract_issue_date text = .error e)
        ∨ (∃ e, extract_due_date text = .error e)
        ∨ (∃ e, extract_supply_date text = .error e)
        ∨ (∃ e, extract_variable_symbol text = .error e)
        ∨ (∃ e, extract_supplier_info text = .error e)
        ∨ (∃ e, extract_vat_breakdown text = .error e)
        ∨ (∃ e, extract_total_amount text = .error e)) →
      ∃ e, parsePhoenix text = .error e) := by
  have hpart1 : ∀ inv : ParsedInvoice, parsePhoenix text = .ok inv →
      extract_invoice_number text = .ok inv.invoice_number
      ∧ extract_issue_date text = .ok inv.issue_date
      ∧ extract_due_date text = .ok inv.due_date
      ∧ extract_supply_date text = .ok inv.supply_date
      ∧ extract_variable_symbol text = .ok inv.variable_symbol
      ∧ extract_supplier_info text = .ok inv.supplier
      ∧ extract_vat_breakdown text = .ok inv.vat_breakdowns
      ∧ extract_total_amount text = .ok inv.total_amount
      ∧ inv.vendor = "Phoenix"
      ∧ inv.received_invoice_number = inv.invoice_number := by
    intro inv h
    rw [parsePhoenix] at h
    cases hp : parsePipeline text with
    | error e => rw [hp] at h; simp at h
    | ok inv' =>
    rw [hp] at h
    simp only [Except.ok.injEq] at h
    subst h
    rw [parsePipeline] at hp
    cases h1 : extract_invoice_number text with
    | error e => rw [h1] at hp; simp [bind, Except.bind] at hp
    | ok invnum =>
    rw [h1] at hp
    simp only [bind, Except.bind] at hp
    cases h2 : extract_issue_date text with
    | error e => rw [h2] at hp; simp at hp
    | ok issue =>
    rw [h2] at hp
    simp only [bind, Except.bind] at hp
    cases h3 : extract_due_date text with
    | error e => rw [h3] at hp; simp at hp
    | ok due =>
    rw [h3] at hp
    simp only [bind, Except.bind] at hp
    cases h4 : extract_supply_date text with
    | error e => rw [h4] at hp; simp at hp
    | ok supply =>
    rw [h4] at hp
    simp only [bind, Except.bind] at hp
    cases h5 : extract_variable_symbol text with
    | error e => rw [h5] at hp; simp at hp
    | ok vs =>
    rw [h5] at hp
    simp only [bind, Except.bind] at hp
    cases h6 : extract_supplier_info text with
    | error e => rw [h6] at hp; simp at hp
    | ok sup =>
    rw [h6] at hp
    simp only [bind, Except.bind] at hp
    cases h7 : extract_vat_breakdown text with
    | error e => rw [h7] at hp; simp at hp
    | ok vbs =>
    rw [h7] at hp
    simp only [bind, Except.bind] at hp
    cases h8 : extract_total_amount text with
    | error e => rw [h8] at hp; simp at hp
    | ok total =>
    rw [h8] at hp
    simp only [bind, Except.bind] at hp
    rw [mkParsedInvoice_ok _ _ _ _ _ _ _ _ _ _ _ hp]
    exact ⟨rfl, rfl, rfl, rfl, rfl, rfl, rfl, rfl, rfl, rfl⟩
  refine ⟨hpart1, ?_⟩
  intro hfail
  cases hp : parsePhoenix text with
  | error e => exact ⟨e, rfl⟩
  | ok inv =>
    obtain ⟨h1, h2, h3, h4, h5, h6, h7, h8, _, _⟩ := hpart1 inv hp
    exfalso
    rcases hfail with ⟨e, he⟩ | ⟨e, he⟩ | ⟨e, he⟩ | ⟨e, he⟩ | ⟨e, he⟩ | ⟨e, he⟩
      | ⟨e, he⟩ | ⟨e, he⟩ <;> simp_all

theorem c5_witness : ∃ e, parsePhoenix "" = .error e :=
  (c5_all_or_nothing "").2
    (Or.inl ⟨"Invoice number not found", by with_unfolding_all decide⟩)

theorem finditerAux_start_ge (ci : Bool) (re : RE) :
    ∀ (fuel : Nat) (s : List Char) (off : Nat) (m : RMatch),
      m ∈ finditerAux ci re fuel s off → off ≤ m.start := by
  intro fuel
  induction fuel with
  | zero => intro s off m h; simp [finditerAux] at h
  | succ n ih =>
    intro s off m h
    rw [finditerAux] at h
    cases hs : reSearch ci re s with
    | none => rw [hs] at h; simp at h
    | some m0 =>
      rw [hs] at h
      rcases List.mem_cons.mp h with rfl | htail
      · simp
      · have := ih _ _ _ htail
        omega

theorem finditerAux_pairwise (ci : Bool) (re : RE) :
    ∀ (fuel : Nat) (s : List Char) (off : Nat),
      List.Pairwise (fun a b => a.start < b.start) (finditerAux ci re fuel s off) := by
  intro fuel
  induction fuel with
  | zero => intro s off; simp [finditerAux]
  | succ n ih =>
    intro s off
    rw [finditerAux]
    cases hs : reSearch ci re s with
    | none => simp
    | some m0 =>
      refine List.Pairwise.cons ?_ (ih _ _)
      intro b hb
      have hge := finditerAux_start_ge ci re n _ _ b hb
      have h1 : 1 ≤ max 1 m0.matched.length := le_max_left _ _
      simp only [RMatch.mk.injEq]
      omega

/-- C2: finditer yields the per-rate matches in document order (their
start offsets strictly increase), and whenever the base or the amount
pattern of a rate has two or more matches, the per-rate extraction
returns the cleaned decimal value of the last match in that order. -/
theorem c2_last_match_wins :
    ∀ text rate : String, rate ∈ (["21", "12", "0"] : List String) →
      List.Pairwise (fun a b => a.start < b.start)
        (finditer false (vatBasePat rate) text.data)
      ∧ List.Pairwise (fun a b => a.start < b.start)
        (finditer false (vatAmountPat rate) text.data)
      ∧ (∀ m : String, 2 ≤ (extract_all_matches text (vatBasePat rate) 1).length →
          (extract_all_matches text (vatBasePat rate) 1).getLast? = some (some m) →
          extract_vat_base text rate = (decimalOfString (clean_czech_number m)).map some)
      ∧ (∀ m : String, 2 ≤ (extract_all_matches text (vatAmountPat rate) 1).length →
          (extract_all_matches text (vatAmountPat rate) 1).getLast? = some (some m) →
          extract_vat_amount text rate
            = (decimalOfString (clean_czech_number m)).map some) := by
  intro text rate _
  refine ⟨finditerAux_pairwise _ _ _ _ _, finditerAux_pairwise _ _ _ _ _, ?_, ?_⟩
  · intro m _ hlast
    rw [extract_vat_base, hlast]
  · intro m _ hlast
    rw [extract_vat_amount, hlast]

theorem c2_witness :
    extract_vat_base "21% 1,00 0,21\n21% 2,00 0,42" "21" = .ok (some 2)
    ∧ extract_vat_amount "21% 1,00 0,21\n21% 2,00 0,42" "21" = .ok (some (21 / 50)) := by
  have h := c2_last_match_wins "21% 1,00 0,21\n21% 2,00 0,42" "21" (by decide)
  constructor
  · rw [h.2.2.1 " 2,00" (by with_unfolding_all decide) (by with_unfolding_all decide)]
    with_unfolding_all decide
  · rw [h.2.2.2 " 0,42" (by with_unfolding_all decide) (by with_unfolding_all decide)]
    with_unfolding_all decide

theorem issueLoop_skip (pre ls : List (List Char))
    (h : ∀ ln ∈ pre, issueLabelLine ln = false) :
    issueLoop (pre ++ ls) = issueLoop ls := by
  induction pre with
  | nil => rfl
  | cons ln rest ih =>
    rw [List.cons_append, issueLoop, if_neg]
    · exact ih (fun x hx => h x (List.mem_cons_of_mem _ hx))
    · simp [h ln (List.mem_cons_self _ _)]

theorem supplyLoop_skip (pre ls : List (List Char))
    (h : ∀ ln ∈ pre, taxLabelLine ln = false) :
    supplyLoop (pre ++ ls) = supplyLoop ls := by
  induction pre with
  | nil => rfl
  | cons ln rest ih =>
    rw [List.cons_append, supplyLoop, if_neg]
    · exact ih (fun x hx => h x (List.mem_cons_of_mem _ hx))
    · simp [h ln (List.mem_cons_self _ _)]

/-- C3: when the first issue-date label line is directly followed by the
first tax-point label line and then by two date-literal lines (the
layout the parser documents), the issue date is the first literal and
the supply date the second; when only one literal follows, both resolve
to that one literal. -/
theorem c3_date_disambiguation :
    (∀ (text : String) (pre : List (List Char)) (l0 l1 l2 l3 : List Char)
        (rest : List (List Char)) (d1 d2 : String) (D1 D2 : PDate),
      splitLines text = pre ++ l0 :: l1 :: l2 :: l3 :: rest →
      (∀ ln ∈ pre, issueLabelLine ln = false) →
      (∀ ln ∈ pre, taxLabelLine ln = false) →
      issueLabelLine l0 = true → taxLabelLine l0 = false → taxLabelLine l1 = true →
      extract_czech_date (String.mk l0) = none →
      extract_czech_date (String.mk l1) = none →
      extract_czech_date (String.mk l2) = some d1 →
      extract_czech_date (String.mk l3) = some d2 →
      extract_czech_date text ≠ none →
      parse_czech_date d1 = .ok D1 → parse_czech_date d2 = .ok D2 →
      extract_issue_date text = .ok D1 ∧ extract_supply_date text = .ok D2)
    ∧ (∀ (text : String) (pre : List (List Char)) (l0 l1 l2 : List Char)
        (rest : List (List Char)) (d : String) (D : PDate),
      splitLines text = pre ++ l0 :: l1 :: l2 :: rest →
      (∀ ln ∈ pre, issueLabelLine ln = false) →
      (∀ ln ∈ pre, taxLabelLine ln = false) →
      issueLabelLine l0 = true → taxLabelLine l0 = false → taxLabelLine l1 = true →
      extract_czech_date (String.mk l0) = none →
      extract_czech_date (String.mk l1) = none →
      extract_czech_date (String.mk l2) = some d →
      datesInLines (rest.take 3) = [] →
      extract_czech_date text ≠ none →
      parse_czech_date d = .ok D →
      extract_issue_date text = .ok D ∧ extract_supply_date text = .ok D) := by
  constructor
  · intro text pre l0 l1 l2 l3 rest d1 d2 D1 D2 hsplit hpreI hpreT hl0 hl0t hl1t
      hd0 hd1 hd2 hd3 hglob hp1 hp2
    constructor
    · rw [extract_issue_date]
      cases hg : extract_czech_date text with
      | none => exact absurd hg hglob
      | some d0 =>
        rw [hsplit, issueLoop_skip pre _ hpreI, issueLoop, if_pos hl0]
        simp [firstDateInLines, hd0, hd1, hd2, hp1]
    · rw [extract_supply_date, hsplit, supplyLoop_skip pre _ hpreT, supplyLoop,
        if_neg (by simp [hl0t])]
      rw [supplyLoop, if_pos hl1t]
      simp [datesInLines, hd1, hd2, hd3, hp2]
  · intro text pre l0 l1 l2 rest d D hsplit hpreI hpreT hl0 hl0t hl1t
      hd0 hd1 hd2 hrest hglob hp
    constructor
    · rw [extract_issue_date]
      cases hg : extract_czech_date text with
      | none => exact absurd hg hglob
      | some d0 =>
        rw [hsplit, issueLoop_skip pre _ hpreI, issueLoop, if_pos hl0]
        simp [firstDateInLines, hd0, hd1, hd2, hp]
    · rw [extract_supply_date, hsplit, supplyLoop_skip pre _ hpreT, supplyLoop,
        if_neg (by simp [hl0t])]
      rw [supplyLoop, if_pos hl1t]
      simp only [datesInLines] at hrest
      simp [datesInLines, hd1, hd2, hrest, hp]

theorem c3_witness :
    extract_issue_date "Datum vystavení:\nDatum usk. zdanit. plnění:\n22.11.2025\n24.11.2025"
      = .ok ⟨2025, 11, 22⟩
    ∧ extract_supply_date "Datum vystavení:\nDatum usk. zdanit. plnění:\n22.11.2025\n24.11.2025"
      = .ok ⟨2025, 11, 24⟩
    ∧ extract_issue_date "Datum vystavení:\nDatum usk. zdanit. plnění:\n22.11.2025"
      = .ok ⟨2025, 11, 22⟩
    ∧ extract_supply_date "Datum vystavení:\nDatum usk. zdanit. plnění:\n22.11.2025"
      = .ok ⟨2025, 11, 22⟩ := by
  have hA := c3_date_disambiguation.1
    "Datum vystavení:\nDatum usk. zdanit. plnění:\n22.11.2025\n24.11.2025"
    [] "Datum vystavení:".data "Datum usk. zdanit. plnění:".data
    "22.11.2025".data "24.11.2025".data [] "22.11.2025" "24.11.2025"
    ⟨2025, 11, 22⟩ ⟨2025, 11, 24⟩
    (by decide) (by decide) (by decide) (by decide) (by decide) (by decide)
    (by decide) (by decide) (by decide) (by decide) (by decide) (by decide)
    (by decide)
  have hB := c3_date_disambiguation.2
    "Datum vystavení:\nDatum usk. zdanit. plnění:\n22.11.2025"
    [] "Datum vystavení:".data "Datum usk. zdanit. plnění:".data
    "22.11.2025".data [] "22.11.2025" ⟨2025, 11, 22⟩
    (by decide) (by decide) (by decide) (by decide) (by decide) (by decide)
    (by decide) (by decide) (by decide) (by decide) (by decide) (by decide)
  exact ⟨hA.1, hA.2, hB.1, hB.2⟩

/-- C4 (corrected): a nonzero rate contributes a breakdown row exactly
when both its base and its VAT amount are extracted with truthy
(non-none, nonzero) values, and the 0 percent rate exactly when its
base is truthy — a figure extracted as exactly zero does not count as
found, because Decimal zero is falsy; and when no rate contributes, the
extraction fails with the error "No VAT breakdown found" instead of
returning an empty breakdown. -/
theorem c4_breakdown_inclusion :
    (∀ (text : String) (rows : List VATBreakdown) (b21 v21 b12 v12 b0 : Option ℚ),
      extract_vat_breakdown text = .ok rows →
      extract_vat_base text "21" = .ok b21 → extract_vat_amount text "21" = .ok v21 →
      extract_vat_base text "12" = .ok b12 → extract_vat_amount text "12" = .ok v12 →
      extract_vat_base text "0" = .ok b0 →
      ((∃ r ∈ rows, r.rate = 21 / 100) ↔ (truthyDec b21 && truthyDec v21) = true)
      ∧ ((∃ r ∈ rows, r.rate = 12 / 100) ↔ (truthyDec b12 && truthyDec v12) = true)
      ∧ ((∃ r ∈ rows, r.rate = 0) ↔ truthyDec b0 = true)
      ∧ (∀ r ∈ rows, r.rate = 0 → r.amount = 0))
    ∧ (∀ (text : String) (b21 v21 b12 v12 b0 : Option ℚ),
      extract_vat_base text "21" = .ok b21 → extract_vat_amount text "21" = .ok v21 →
      extract_vat_base text "12" = .ok b12 → extract_vat_amount text "12" = .ok v12 →
      extract_vat_base text "0" = .ok b0 →
      (truthyDec b21 && truthyDec v21) = false →
      (truthyDec b12 && truthyDec v12) = false →
      truthyDec b0 = false →
      extract_vat_breakdown text = .error "No VAT breakdown found") := by
  constructor
  · intro text rows b21 v21 b12 v12 b0 hok hb21 hv21 hb12 hv12 hb0
    obtain ⟨b21', v21', b12', v12', b0', e1, e2, e3, e4, e5, hrows, _⟩ :=
      extract_vat_breakdown_spec text rows hok
    obtain rfl : b21' = b21 := Except.ok.inj (e1.symm.trans hb21)
    obtain rfl : v21' = v21 := Except.ok.inj (e2.symm.trans hv21)
    obtain rfl : b12' = b12 := Except.ok.inj (e3.symm.trans hb12)
    obtain rfl : v12' = v12 := Except.ok.inj (e4.symm.trans hv12)
    obtain rfl : b0' = b0 := Except.ok.inj (e5.symm.trans hb0)
    have n1 : (12 / 100 : ℚ) ≠ 21 / 100 := by with_unfolding_all decide
    have n2 : (0 : ℚ) ≠ 21 / 100 := by with_unfolding_all decide
    have n3 : (21 / 100 : ℚ) ≠ 12 / 100 := by with_unfolding_all decide
    have n4 : (0 : ℚ) ≠ 12 / 100 := by with_unfolding_all decide
    have n5 : (21 / 100 : ℚ) ≠ 0 := by with_unfolding_all decide
    have n6 : (12 / 100 : ℚ) ≠ 0 := by with_unfolding_all decide
    subst hrows
    cases hc21 : truthyDec b21' && truthyDec v21' <;>
      cases hc12 : truthyDec b12' && truthyDec v12' <;>
        cases hc0 : truthyDec b0' <;>
          simp [hc21, hc12, hc0, n1, n2, n3, n4, n5, n6]
  · intro text b21 v21 b12 v12 b0 hb21 hv21 hb12 hv12 hb0 hc21 hc12 hc0
    exact extract_vat_breakdown_none text b21 v21 b12 v12 b0 hb21 hv21 hb12 hv12 hb0
      hc21 hc12 hc0

/-- C4, counterexample to the claim as stated: in this document the 0
percent base figure is found by the extractor (it extracts the value
0.00), yet the breakdown contains no 0 percent row, so "contributes a
row if and only if its base is found" fails when the found figure is
zero. -/
theorem c4_counterexample :
    extract_vat_base "21% 40,00 8,40 0% 0,00" "0" = .ok (some 0)
    ∧ extract_vat_breakdown "21% 40,00 8,40 0% 0,00" = .ok [⟨21 / 100, 40, 42 / 5⟩]
    ∧ ∀ r ∈ [(⟨21 / 100, 40, 42 / 5⟩ : VATBreakdown)], r.rate ≠ 0 := by
  with_unfolding_all decide

theorem c4_witness :
    ((∃ r ∈ [(⟨21 / 100, 40, 42 / 5⟩ : VATBreakdown)], r.rate = 21 / 100) ↔
      (truthyDec (some 40) && truthyDec (some (42 / 5))) = true)
    ∧ ((∃ r ∈ [(⟨21 / 100, 40, 42 / 5⟩ : VATBreakdown)], r.rate = 12 / 100) ↔
      (truthyDec none && truthyDec none) = true)
    ∧ ((∃ r ∈ [(⟨21 / 100, 40, 42 / 5⟩ : VATBreakdown)], r.rate = 0) ↔
      truthyDec (some 0) = true)
    ∧ (∀ r ∈ [(⟨21 / 100, 40, 42 / 5⟩ : VATBreakdown)], r.rate = 0 → r.amount = 0) :=
  c4_breakdown_inclusion.1 "21% 40,00 8,40 0% 0,00" [⟨21 / 100, 40, 42 / 5⟩]
    (some 40) (some (42 / 5)) none none (some 0)
    (by with_unfolding_all decide) (by with_unfolding_all decide)
    (by with_unfolding_all decide) (by with_unfolding_all decide)
    (by with_unfolding_all decide) (by with_unfolding_all decide)

/-- C9: a figure extracted as exactly 0.00 is falsy in the inclusion
guards of _extract_vat_breakdown, so a 0 percent rate whose base reads
0.00, and a nonzero rate whose recap base or VAT amount reads 0.00, is
silently excluded from the breakdown instead of yielding a zero-valued
row. -/
theorem c9_zero_is_not_found (text : String) (rows : List VATBreakdown)
    (hok : extract_vat_breakdown text = .ok rows) :
    (extract_vat_base text "0" = .ok (some 0) → ∀ r ∈ rows, r.rate ≠ 0)
    ∧ (extract_vat_amount text "21" = .ok (some 0) → ∀ r ∈ rows, r.rate ≠ 21 / 100)
    ∧ (extract_vat_amount text "12" = .ok (some 0) → ∀ r ∈ rows, r.rate ≠ 12 / 100)
    ∧ (extract_vat_base text "21" = .ok (some 0) → ∀ r ∈ rows, r.rate ≠ 21 / 100)
    ∧ (extract_vat_base text "12" = .ok (some 0) → ∀ r ∈ rows, r.rate ≠ 12 / 100) := by
  obtain ⟨b21, v21, b12, v12, b0, e1, e2, e3, e4, e5, hrows, _⟩ :=
    extract_vat_breakdown_spec text rows hok
  have n1 : (12 / 100 : ℚ) ≠ 21 / 100 := by with_unfolding_all decide
  have n2 : (0 : ℚ) ≠ 21 / 100 := by with_unfolding_all decide
  have n3 : (21 / 100 : ℚ) ≠ 12 / 100 := by with_unfolding_all decide
  have n4 : (0 : ℚ) ≠ 12 / 100 := by with_unfolding_all decide
  have n5 : (21 / 100 : ℚ) ≠ 0 := by with_unfolding_all decide
  have n6 : (12 / 100 : ℚ) ≠ 0 := by with_unfolding_all decide
  have hz : truthyDec (some (0 : ℚ)) = false := by with_unfolding_all decide
  subst hrows
  refine ⟨?_, ?_, ?_, ?_, ?_⟩
  · intro h
    obtain rfl : b0 = some 0 := Except.ok.inj (e5.symm.trans h)
    cases hc21 : truthyDec b21 && truthyDec v21 <;>
      cases hc12 : truthyDec b12 && truthyDec v12 <;>
        simp [hc21, hc12, hz, n5, n6]
  · intro h
    obtain rfl : v21 = some 0 := Except.ok.inj (e2.symm.trans h)
    have hc21 : (truthyDec b21 && truthyDec (some (0 : ℚ))) = false := by
      simp [hz]
    cases hc12 : truthyDec b12 && truthyDec v12 <;>
      cases hc0 : truthyDec b0 <;>
        simp [hc21, hc12, hc0, n1, n2]
  · intro h
    obtain rfl : v12 = some 0 := Except.ok.inj (e4.symm.trans h)
    have hc12 : (truthyDec b12 && truthyDec (some (0 : ℚ))) = false := by
      simp [hz]
    cases hc21 : truthyDec b21 && truthyDec v21 <;>
      cases hc0 : truthyDec b0 <;>
        simp [hc21, hc12, hc0, n3, n4]
  · intro h
    obtain rfl : b21 = some 0 := Except.ok.inj (e1.symm.trans h)
    have hc21 : (truthyDec (some (0 : ℚ)) && truthyDec v21) = false := by
      simp [hz]
    cases hc12 : truthyDec b12 && truthyDec v12 <;>
      cases hc0 : truthyDec b0 <;>
        simp [hc21, hc12, hc0, n1, n2]
  · intro h
    obtain rfl : b12 = some 0 := Except.ok.inj (e3.symm.trans h)
    have hc12 : (truthyDec (some (0 : ℚ)) && truthyDec v12) = false := by
      simp [hz]
    cases hc21 : truthyDec b21 && truthyDec v21 <;>
      cases hc0 : truthyDec b0 <;>
        simp [hc21, hc12, hc0, n3, n4]

theorem c9_witness :
    (∀ r ∈ [(⟨21 / 100, 50, 21 / 2⟩ : VATBreakdown)], r.rate ≠ 0)
    ∧ (∀ r ∈ [(⟨12 / 100, 50, 6⟩ : VATBreakdown)], r.rate ≠ 21 / 100) :=
  ⟨(c9_zero_is_not_found "21% 50,00 10,50 0% 0,00" [⟨21 / 100, 50, 21 / 2⟩]
      (by with_unfolding_all decide)).1 (by with_unfolding_all decide),
    (c9_zero_is_not_found "12% 50,00 6,00 21% 50,00 0,00" [⟨12 / 100, 50, 6⟩]
      (by with_unfolding_all decide)).2.1 (by with_unfolding_all decide)⟩

theorem vatCheck_cons (row : VATBreakdown) (rest : List VATBreakdown)
    (r : ValidationResult) :
    vatCheck (row :: rest) r =
      vatCheck rest
        (if vatCalcOk row.rate row.base row.amount then r
          else r.add_error "VAT amount does not match base times rate"
            (some "vat_breakdowns") (some "VAT_MISMATCH") none) := by
  simp only [vatCheck, List.foldl_cons]

theorem vatCheck_is_valid (rows : List VATBreakdown) :
    ∀ r : ValidationResult,
      (vatCheck rows r).is_valid =
        (r.is_valid && rows.all (fun row => vatCalcOk row.rate row.base row.amount)) := by
  induction rows with
  | nil => intro r; simp [vatCheck]
  | cons row rest ih =>
    intro r
    rw [vatCheck_cons]
    cases h : vatCalcOk row.rate row.base row.amount with
    | true => simp [ih, h]
    | false => simp [ih, h, ValidationResult.add_error]

theorem vatCheck_errors_mono (rows : List VATBreakdown) :
    ∀ (r : ValidationResult) (m : ValidationMessage),
      m ∈ r.errors → m ∈ (vatCheck rows r).errors := by
  induction rows with
  | nil => intro r m h; simpa [vatCheck] using h
  | cons row rest ih =>
    intro r m h
    rw [vatCheck_cons]
    apply ih
    split
    · exact h
    · simp only [ValidationResult.add_error]
      exact List.mem_append_left _ h

theorem vatCheck_mem_bad (rows : List VATBreakdown) :
    ∀ (r : ValidationResult) (row : VATBreakdown), row ∈ rows →
      vatCalcOk row.rate row.base row.amount = false →
      vatMismatchMsg ∈ (vatCheck rows r).errors := by
  induction rows with
  | nil => intro r row h; exact absurd h (List.not_mem_nil row)
  | cons hd rest ih =>
    intro r row hmem hbad
    rw [vatCheck_cons]
    rcases List.mem_cons.mp hmem with heq | htail
    · subst heq
      rw [if_neg (by simp [hbad])]
      apply vatCheck_errors_mono
      simp [ValidationResult.add_error, vatMismatchMsg]
    · exact ih _ row htail hbad

theorem mem_errors_add_error (r : ValidationResult) (m : ValidationMessage)
    (msg : String) (f c : Option String) (ctx : Option (List (String × String))) :
    m ∈ r.errors → m ∈ (r.add_error msg f c ctx).errors := by
  intro h
  simp only [ValidationResult.add_error]
  exact List.mem_append_left _ h

theorem validateRecord_is_valid (inv : ParsedInvoice) :
    (validateRecord inv).is_valid =
      (inv.vat_breakdowns.all (fun row => vatCalcOk row.rate row.base row.amount)
        && totalOk inv.vat_breakdowns inv.total_amount
        && dueDateOk inv.issue_date inv.due_date
        && supplyDateOk inv.issue_date inv.supply_date
        && icFormatOk inv.supplier.ic) := by
  cases hic : icFormatOk inv.supplier.ic <;>
    cases hsup : supplyDateOk inv.issue_date inv.supply_date <;>
      cases hdue : dueDateOk inv.issue_date inv.due_date <;>
        cases htot : totalOk inv.vat_breakdowns inv.total_amount <;>
          simp [validateRecord, hic, hsup, hdue, htot, vatCheck_is_valid,
            ValidationResult.add_error]

theorem validateRecord_mem (inv : ParsedInvoice) (m : ValidationMessage)
    (h : m ∈ (vatCheck inv.vat_breakdowns ⟨true, [], [], []⟩).errors) :
    m ∈ (validateRecord inv).errors := by
  simp only [validateRecord]
  split <;> split <;> split <;> split <;>
    first
      | exact h
      | ((repeat' apply mem_errors_add_error); exact h)

/-- C1: for a ParsedInvoice all of whose VAT breakdown rows satisfy the
VAT arithmetic bound (and whose other validation checks pass),
re-assigning a row amount to a value violating the bound raises no
exception (VATBreakdown has no validate_assignment), and validation of
the mutated record flips is_valid from true to false and records an
error-severity message with code VAT_MISMATCH.  The validation engine is
modelled from the spec, since only the ValidationResult model it fills
is among the sources. -/
theorem c1_vat_mutation (inv : ParsedInvoice) (i : Nat)
    (hi : i < inv.vat_breakdowns.length) (a : ℚ)
    (hrows : ∀ row ∈ inv.vat_breakdowns, vatCalcOk row.rate row.base row.amount = true)
    (htot : totalOk inv.vat_breakdowns inv.total_amount = true)
    (hdue : dueDateOk inv.issue_date inv.due_date = true)
    (hsup : supplyDateOk inv.issue_date inv.supply_date = true)
    (hic : icFormatOk inv.supplier.ic = true)
    (hbad : vatCalcOk (inv.vat_breakdowns.get ⟨i, hi⟩).rate
      (inv.vat_breakdowns.get ⟨i, hi⟩).base a = false) :
    (validateRecord inv).is_valid = true
    ∧ assignAmount (inv.vat_breakdowns.get ⟨i, hi⟩) a
        = .ok ⟨(inv.vat_breakdowns.get ⟨i, hi⟩).rate,
            (inv.vat_breakdowns.get ⟨i, hi⟩).base, a⟩
    ∧ (validateRecord ⟨inv.vendor, inv.invoice_number, inv.received_invoice_number,
        inv.issue_date, inv.due_date, inv.supply_date, inv.supplier, inv.customer,
        inv.vat_breakdowns.set i ⟨(inv.vat_breakdowns.get ⟨i, hi⟩).rate,
          (inv.vat_breakdowns.get ⟨i, hi⟩).base, a⟩,
        inv.total_amount, inv.variable_symbol, inv.constant_symbol,
        inv.specific_symbol⟩).is_valid = false
    ∧ ∃ m ∈ (validateRecord ⟨inv.vendor, inv.invoice_number,
        inv.received_invoice_number, inv.issue_date, inv.due_date, inv.supply_date,
        inv.supplier, inv.customer,
        inv.vat_breakdowns.set i ⟨(inv.vat_breakdowns.get ⟨i, hi⟩).rate,
          (inv.vat_breakdowns.get ⟨i, hi⟩).base, a⟩,
        inv.total_amount, inv.variable_symbol, inv.constant_symbol,
        inv.specific_symbol⟩).errors, m.severity = .error ∧ m.code = some "VAT_MISMATCH" := by
  have hrow' : (⟨(inv.vat_breakdowns.get ⟨i, hi⟩).rate,
      (inv.vat_breakdowns.get ⟨i, hi⟩).base, a⟩ : VATBreakdown)
      ∈ inv.vat_breakdowns.set i ⟨(inv.vat_breakdowns.get ⟨i, hi⟩).rate,
        (inv.vat_breakdowns.get ⟨i, hi⟩).base, a⟩ :=
    List.mem_set inv.vat_breakdowns i hi _
  refine ⟨?_, rfl, ?_, ?_⟩
  · rw [validateRecord_is_valid]
    simp only [htot, hdue, hsup, hic, Bool.and_true, List.all_eq_true]
    exact hrows
  · rw [validateRecord_is_valid]
    have hall : (inv.vat_breakdowns.set i ⟨(inv.vat_breakdowns.get ⟨i, hi⟩).rate,
        (inv.vat_breakdowns.get ⟨i, hi⟩).base, a⟩).all
        (fun row => vatCalcOk row.rate row.base row.amount) = false := by
      rw [List.all_eq_false]
      exact ⟨_, hrow', by simpa using hbad⟩
    simp only [List.get_eq_getElem] at hall
    simp [hall]
  · refine ⟨vatMismatchMsg, ?_, rfl, rfl⟩
    exact validateRecord_mem _ _ (vatCheck_mem_bad _ _ _ hrow' hbad)

theorem c1_witness :
    (validateRecord ⟨"Phoenix", "1", "1", ⟨2025, 1, 1⟩, ⟨2025, 1, 10⟩, ⟨2025, 1, 1⟩,
        ⟨"A", "12345678", none, none, none, none, none⟩, none,
        [⟨21 / 100, 100, 21⟩], 121, none, none, none⟩).is_valid = true
    ∧ assignAmount ⟨21 / 100, 100, 21⟩ 50 = .ok ⟨21 / 100, 100, 50⟩
    ∧ (validateRecord ⟨"Phoenix", "1", "1", ⟨2025, 1, 1⟩, ⟨2025, 1, 10⟩, ⟨2025, 1, 1⟩,
        ⟨"A", "12345678", none, none, none, none, none⟩, none,
        [⟨21 / 100, 100, 50⟩], 121, none, none, none⟩).is_valid = false
    ∧ ∃ m ∈ (validateRecord ⟨"Phoenix", "1", "1", ⟨2025, 1, 1⟩, ⟨2025, 1, 10⟩,
        ⟨2025, 1, 1⟩, ⟨"A", "12345678", none, none, none, none, none⟩, none,
        [⟨21 / 100, 100, 50⟩], 121, none, none, none⟩).errors,
        m.severity = .error ∧ m.code = some "VAT_MISMATCH" :=
  c1_vat_mutation
    ⟨"Phoenix", "1", "1", ⟨2025, 1, 1⟩, ⟨2025, 1, 10⟩, ⟨2025, 1, 1⟩,
      ⟨"A", "12345678", none, none, none, none, none⟩, none,
      [⟨21 / 100, 100, 21⟩], 121, none, none, none⟩
    0 (by decide) 50
    (by with_unfolding_all decide)
    (by with_unfolding_all decide)
    (by decide) (by decide) (by decide)
    (by with_unfolding_all decide)

/-- C6: with every other construction check passing, ParsedInvoice
construction fails exactly when the supply date falls outside the window
from 90 days before to 30 days after the issue date; the boolean
supplyDateOk embeds the validate_supply_date check. -/
theorem c6_supply_date_window :
    (∀ issue supply : PDate,
      supplyDateOk issue supply = false ↔
        ((toOrdinal supply : ℤ) < (toOrdinal issue : ℤ) - 90 ∨
          (toOrdinal issue : ℤ) + 30 < (toOrdinal supply : ℤ)))
    ∧ (∀ (vendor inum rnum : String) (issue due supply : PDate)
        (sup : SupplierInfo) (vbs : List VATBreakdown) (total : ℚ)
        (vs : Option String),
        inum.length ≤ 50 → rnum.length ≤ 50 → dueDateOk issue due = true →
        vbs.isEmpty = false → 0 ≤ total → totalOk vbs total = true →
        optTooLong vs 20 = false →
        ((∃ inv, mkParsedInvoice vendor inum rnum issue due supply sup vbs total vs
            = .ok inv) ↔ supplyDateOk issue supply = true)) := by
  constructor
  · intro issue supply
    simp only [supplyDateOk, Bool.not_eq_false', Bool.or_eq_true, decide_eq_true_eq]
    omega
  · intro vendor inum rnum issue due supply sup vbs total vs hinum hrnum hdue hvbs
      htotal htotOk hvs
    rw [mkParsedInvoice]
    rw [if_neg (by omega : ¬ inum.length > 50), if_neg (by omega : ¬ rnum.length > 50)]
    rw [if_neg (by simp [hdue] : ¬ (!dueDateOk issue due) = true)]
    have hnl := not_lt.mpr htotal
    cases hsup : supplyDateOk issue supply with
    | false => simp
    | true => simp [hvbs, hnl, htotOk, hvs]

theorem c6_witness :
    (¬ ∃ inv, mkParsedInvoice "Phoenix" "1" "1" ⟨2025, 6, 1⟩ ⟨2025, 6, 1⟩ ⟨2025, 3, 2⟩
        ⟨"A", "12345678", none, none, none, none, none⟩
        [⟨21 / 100, 100, 21⟩] 121 none = .ok inv)
    ∧ (∃ inv, mkParsedInvoice "Phoenix" "1" "1" ⟨2025, 6, 1⟩ ⟨2025, 6, 1⟩ ⟨2025, 6, 30⟩
        ⟨"A", "12345678", none, none, none, none, none⟩
        [⟨21 / 100, 100, 21⟩] 121 none = .ok inv)
    ∧ (∃ inv, mkParsedInvoice "Phoenix" "1" "1" ⟨2025, 6, 1⟩ ⟨2025, 6, 1⟩ ⟨2025, 7, 1⟩
        ⟨"A", "12345678", none, none, none, none, none⟩
        [⟨21 / 100, 100, 21⟩] 121 none = .ok inv)
    ∧ (¬ ∃ inv, mkParsedInvoice "Phoenix" "1" "1" ⟨2025, 6, 1⟩ ⟨2025, 6, 1⟩ ⟨2025, 7, 2⟩
        ⟨"A", "12345678", none, none, none, none, none⟩
        [⟨21 / 100, 100, 21⟩] 121 none = .ok inv) := by
  refine ⟨?_, ?_, ?_, ?_⟩
  · rw [c6_supply_date_window.2 "Phoenix" "1" "1" ⟨2025, 6, 1⟩ ⟨2025, 6, 1⟩ ⟨2025, 3, 2⟩
      ⟨"A", "12345678", none, none, none, none, none⟩ [⟨21 / 100, 100, 21⟩] 121 none
      (by decide) (by decide) (by decide) (by decide)
      (by with_unfolding_all decide) (by with_unfolding_all decide) (by decide)]
    decide
  · rw [c6_supply_date_window.2 "Phoenix" "1" "1" ⟨2025, 6, 1⟩ ⟨2025, 6, 1⟩ ⟨2025, 6, 30⟩
      ⟨"A", "12345678", none, none, none, none, none⟩ [⟨21 / 100, 100, 21⟩] 121 none
      (by decide) (by decide) (by decide) (by decide)
      (by with_unfolding_all decide) (by with_unfolding_all decide) (by decide)]
    decide
  · rw [c6_supply_date_window.2 "Phoenix" "1" "1" ⟨2025, 6, 1⟩ ⟨2025, 6, 1⟩ ⟨2025, 7, 1⟩
      ⟨"A", "12345678", none, none, none, none, none⟩ [⟨21 / 100, 100, 21⟩] 121 none
      (by decide) (by decide) (by decide) (by decide)
      (by with_unfolding_all decide) (by with_unfolding_all decide) (by decide)]
    decide
  · rw [c6_supply_date_window.2 "Phoenix" "1" "1" ⟨2025, 6, 1⟩ ⟨2025, 6, 1⟩ ⟨2025, 7, 2⟩
      ⟨"A", "12345678", none, none, none, none, none⟩ [⟨21 / 100, 100, 21⟩] 121 none
      (by decide) (by decide) (by decide) (by decide)
      (by with_unfolding_all decide) (by with_unfolding_all decide) (by decide)]
    decide

theorem c7_witness :
    extract_first_match "b" (RE.ch 'a') 0 = none
    ∧ extract_first_match "a" (RE.ch 'a') 1 = none :=
  ⟨(c7_extract_first_failure_modes "b" (.ch 'a') 0).1 (by decide),
   (c7_extract_first_failure_modes "a" (.ch 'a') 1).2.1 (by decide)⟩

end Invoicing
